import Mathlib

/-!
# SweetMix Messenger bot: webhook, text handler and postback handler

A shallow embedding of `Script/commands/.js`.

* JavaScript strings are lists of UTF-16 code units (`JStr`).
* The process-wide `userProfiles` map, the calls made to the Send API and the
  calls made to the completion API form the explicit state `World`; every
  handler is a function `World → World`.
* What the environment answers during one handler run (`Date.now()`,
  `Math.random()`, the locale strings, the completion response) is the record
  `Ext`.  Calls to `fetch` are taken to complete; a rejected `fetch` (which the
  dispatcher turns into status 500) is outside this model.
* `Math.random()` is a double in `[0,1)`; doubles are modelled exactly as
  dyadic numbers `mant * 2^(-expo)` and the product with the pool length is
  rounded to 53 bits, ties to even, as IEEE 754 multiplication does.
-/

namespace SweetMix

/-! ## Strings -/

/-- A JavaScript string: its sequence of UTF-16 code units. -/
abbrev JStr := List Nat

/-- UTF-16 encoding of one code point. -/
def utf16Units (c : Char) : List Nat :=
  if c.toNat < 65536 then [c.toNat]
  else [55296 + (c.toNat - 65536) / 1024, 56320 + (c.toNat - 65536) % 1024]

/-- The JavaScript string denoted by a string literal of the source. -/
def js (s : String) : JStr := s.toList.flatMap utf16Units

/-- The characters matched by `\s` and removed by `String.prototype.trim`:
WhiteSpace and LineTerminator of ECMAScript. -/
def isWhiteSpace (c : Nat) : Bool :=
  c == 9 || c == 10 || c == 11 || c == 12 || c == 13 || c == 32 || c == 160 ||
  c == 5760 || (8192 ≤ c && c ≤ 8202) || c == 8232 || c == 8233 || c == 8239 ||
  c == 8287 || c == 12288 || c == 65279

/-- The method `String.prototype.trim`. -/
def trim (s : JStr) : JStr := (s.dropWhile isWhiteSpace).rdropWhile isWhiteSpace

/-- The operation `Canonicalize` of a non-unicode `/i` regular expression, on the code units
that can equal the canonical form of a pattern character of this program
(ASCII letters, the space and caseless Bengali letters): ASCII lower case
letters go to upper case.  A code unit `≥ 128` is never canonicalised to an
ASCII one, and no code unit has a Bengali letter as its upper case, so
comparing these canonical forms is what the regular expression does. -/
def canonicalize (c : Nat) : Nat := if 97 ≤ c ∧ c ≤ 122 then c - 32 else c

/-- The pattern `pat` (a literal, flag `i`) matches at the start of `s`. -/
def matchesAt : JStr → JStr → Bool
  | [], _ => true
  | _ :: _, [] => false
  | p :: pat, c :: s => canonicalize p == canonicalize c && matchesAt pat s

/-- An alternation of literals matched at the start of `s`: the length of the
first alternative, in the order written, that matches. -/
def altMatch (alts : List JStr) (s : JStr) : Option Nat :=
  (alts.find? (fun p => matchesAt p s)).map List.length

/-- The loop of `String.prototype.split` with a regular expression separator
whose matches are never empty.  `skip` counts the code units of the current
match that are still to be passed over, `acc` is the current segment,
reversed. -/
def splitGo (sep : JStr → Option Nat) : JStr → Nat → JStr → List JStr
  | [], _, acc => [acc.reverse]
  | _ :: rest, skip + 1, acc => splitGo sep rest skip acc
  | c :: rest, 0, acc =>
    match sep (c :: rest) with
    | some (n + 1) => acc.reverse :: splitGo sep rest n []
    | _ => splitGo sep rest 0 (c :: acc)

/-- The call `s.split(sep)` for a regular expression `sep`. -/
def regexSplit (sep : JStr → Option Nat) (s : JStr) : List JStr := splitGo sep s 0 []

/-- Whether `k` is a prefix of `s` (exact code units). -/
def startsWith : JStr → JStr → Bool
  | _, [] => true
  | [], _ :: _ => false
  | c :: s, d :: k => c == d && startsWith s k

/-- The call `s.includes(k)`. -/
def includes : JStr → JStr → Bool
  | [], k => k.isEmpty
  | c :: s, k => startsWith (c :: s) k || includes s k

/-- The part of the JavaScript runtime that is not code of the program: the
Unicode lower-casing of `String.prototype.toLowerCase`.  Of the Unicode tables
only one fact is recorded: ASCII code units other than `A`–`Z` are mapped to
themselves, in place. -/
structure Runtime where
  toLowerCase : JStr → JStr
  lower_keeps : ∀ a k b : JStr, (∀ c ∈ k, c < 128 ∧ ¬ (65 ≤ c ∧ c ≤ 90)) →
    ∃ a2 b2 : JStr, toLowerCase (a ++ k ++ b) = a2 ++ k ++ b2

/-- Lower-casing of the ASCII letters only. -/
def asciiLower (c : Nat) : Nat := if 65 ≤ c ∧ c ≤ 90 then c + 32 else c

/-- A runtime that lower-cases the ASCII letters and nothing else: the
JavaScript one restricted to ASCII text. -/
def asciiRuntime : Runtime where
  toLowerCase := fun s => s.map asciiLower
  lower_keeps := by
    intro a k b hk
    refine ⟨a.map asciiLower, b.map asciiLower, ?_⟩
    have hmap : k.map asciiLower = k := by
      conv_rhs => rw [← List.map_id k]
      apply List.map_congr_left
      intro c hc
      simp [asciiLower, (hk c hc).2]
    simp [hmap]

/-! ## Doubles in `[0,1)` and `Math.floor(Math.random() * n)` -/

/-- A non-negative dyadic number `mant * 2^(-expo)`. -/
structure Draw where
  mant : Nat
  expo : Nat
  deriving DecidableEq, Repr

/-- The values `Math.random()` can return: doubles `≥ 0` and `< 1`
(at most 53 significant bits, exponent at least `-1074`). -/
def Draw.inUnit (d : Draw) : Prop := d.mant < 2 ^ 53 ∧ d.expo ≤ 1074 ∧ d.mant < 2 ^ d.expo

instance (d : Draw) : Decidable d.inUnit := by
  unfold Draw.inUnit
  infer_instance

/-- Comparison `a < b` of two dyadic numbers. -/
def Draw.lt (a b : Draw) : Bool := decide (a.mant * 2 ^ b.expo < b.mant * 2 ^ a.expo)

/-- The function `Math.floor`. -/
def Draw.floor (d : Draw) : Nat := d.mant / 2 ^ d.expo

/-- The number of bits of `m` beyond the 53 a double holds. -/
def excessBits (m : Nat) : Nat := if m < 2 ^ 53 then 0 else Nat.log2 m - 52

/-- Rounding of `m * 2^(-e)` to a double, to nearest, ties to even.  The result
keeps the exponent `e`; its mantissa is a multiple of `2^excessBits m`. -/
def roundToDouble (m e : Nat) : Draw :=
  let sh := excessBits m
  if sh = 0 then { mant := m, expo := e }
  else
    let q := m / 2 ^ sh
    let r := m % 2 ^ sh
    let half := 2 ^ (sh - 1)
    let q2 := if half < r ∨ (r = half ∧ q % 2 = 1) then q + 1 else q
    { mant := q2 * 2 ^ sh, expo := e }

/-- The double product `d * n` for an array length `n`. -/
def Draw.timesNat (d : Draw) (n : Nat) : Draw := roundToDouble (d.mant * n) d.expo

/-- The literal `0.2`: the double nearest to one fifth. -/
def lit02 : Draw := { mant := 3602879701896397, expo := 54 }

/-- The literal `0.25`. -/
def lit025 : Draw := { mant := 1, expo := 2 }

/-- The dyadic number `d` is below the fraction `num / den`. -/
def Draw.below (d : Draw) (num den : Nat) : Prop := d.mant * den < num * 2 ^ d.expo

instance (d : Draw) (num den : Nat) : Decidable (d.below num den) := by
  unfold Draw.below
  infer_instance

/-! ## Data model -/

/-- A platform-scoped user id. -/
abbrev Psid := JStr

/-- A value of `userProfiles`: `name` is `null` (`none`) or a string. -/
structure Profile where
  name : Option JStr
  lastSeen : Nat
  deriving DecidableEq, Repr

/-- JavaScript truthiness of `profile.name`: `null` and `""` are falsy. -/
def truthy : Option JStr → Bool
  | none => false
  | some s => !s.isEmpty

/-- One entry of a quick-reply list or of a button list. -/
structure Option2 where
  title : JStr
  payload : JStr
  deriving DecidableEq, Repr

/-- The body handed to `callSendAPI`, one constructor per sender function.
An image URL is `none` when the JavaScript value is `undefined`. -/
inductive Outbound where
  | text (psid : Psid) (text : JStr)
  | quickReply (psid : Psid) (text : JStr) (replies : List Option2)
  | buttons (psid : Psid) (text : JStr) (buttons : List Option2)
  | image (psid : Psid) (url : Option JStr)
  | audio (psid : Psid) (url : JStr)
  deriving DecidableEq, Repr

/-- The request `aiReply` posts to the completion API: the system message and
the user message (model `gpt-3.5-turbo`, `max_tokens`). -/
structure CompletionRequest where
  model : JStr
  system : JStr
  user : JStr
  maxTokens : Nat
  deriving DecidableEq, Repr

/-- The state the handlers read and write. -/
structure World where
  userProfiles : Psid → Option Profile
  sent : List Outbound
  completionCalls : List CompletionRequest

/-- The environment variables the handlers read. -/
structure Config where
  VERIFY_TOKEN : Option JStr
  VOICE_SAMPLE_URL : JStr

/-- What the environment answers during one run of a handler: `now` is
`Date.now()` when a default profile is created, `nowEnd` is `Date.now()` at the
end of `handleText`, `timeString` and `dateString` are the locale strings of
`new Date()`, `random1` and `random2` are the first and the second value of
`Math.random()`, and `completion` is the field `choices[0].message.content` of
the completion response, `none` when it is absent. -/
structure Ext where
  now : Nat
  nowEnd : Nat
  timeString : JStr
  dateString : JStr
  random1 : Draw
  random2 : Draw
  completion : Option JStr

/-- The name stored for a user: `none` when the user is unknown or the name is
`null`. -/
def storedName (w : World) (psid : Psid) : Option JStr := (w.userProfiles psid).bind Profile.name

/-- The call `userProfiles.set(psid, profile)`. -/
def World.setProfile (w : World) (psid : Psid) (p : Profile) : World :=
  { w with userProfiles := fun q => if q = psid then some p else w.userProfiles q }

/-- The call `callSendAPI(body)`: the body is posted to the Send API. -/
def callSendAPI (body : Outbound) (w : World) : World :=
  { w with sent := w.sent ++ [body] }

def sendText (psid : Psid) (text : JStr) (w : World) : World :=
  callSendAPI (Outbound.text psid text) w

def sendQuickReply (psid : Psid) (text : JStr) (replies : List Option2) (w : World) : World :=
  callSendAPI (Outbound.quickReply psid text replies) w

def sendButtons (psid : Psid) (text : JStr) (buttons : List Option2) (w : World) : World :=
  callSendAPI (Outbound.buttons psid text buttons) w

def sendImage (psid : Psid) (imageUrl : Option JStr) (w : World) : World :=
  callSendAPI (Outbound.image psid imageUrl) w

def sendAudio (psid : Psid) (audioUrl : JStr) (w : World) : World :=
  callSendAPI (Outbound.audio psid audioUrl) w

def SAFE_IMAGE_POOL : List JStr :=
  [ js "https://images.unsplash.com/photo-1500530855697-b586d89ba3ee?q=80&w=1200&auto=format",
    js "https://images.unsplash.com/photo-1511988617509-a57c8a288659?q=80&w=1200&auto=format",
    js "https://images.unsplash.com/photo-1500534314209-a25ddb2bd429?q=80&w=1200&auto=format" ]

/-- The expression `SAFE_IMAGE_POOL[Math.floor(r * SAFE_IMAGE_POOL.length)]` for the
draw `r`. -/
def randomPic (r : Draw) : Option JStr :=
  SAFE_IMAGE_POOL[(r.timesNat SAFE_IMAGE_POOL.length).floor]?

/-- The default name, a term of endearment. -/
def placeholder : JStr := js "প্রিয়"

def promptHead : JStr :=
  js "\nYou are a cute, flirty but SFW Bengali-English mixed chatbot.\nStyle: playful, sweet, romantic hints, emojis. Never explicit or adult.\nAlways keep replies short (1–3 sentences) and positive.\nIf user asks your name, say: \"আমি SweetMix Bot 💖\".\nUser\x27s name: "

def promptTail : JStr := js ".\nUse Bangla base with a little English spice.\n"

def systemPrompt (name : JStr) : JStr := promptHead ++ name ++ promptTail

/-- The value `aiReply` returns for the response field
`data?.choices?.[0]?.message?.content`. -/
def replyOf (content : Option JStr) : JStr :=
  match content with
  | some c => if (trim c).isEmpty then js "Hmm, say that again na? 😊" else trim c
  | none => js "Hmm, say that again na? 😊"

/-- The call `aiReply(content, name)`: one request to the completion API. -/
def aiReply (ext : Ext) (content name : JStr) (w : World) : JStr × World :=
  (replyOf ext.completion,
   { w with completionCalls := w.completionCalls ++
      [{ model := js "gpt-3.5-turbo", system := systemPrompt name, user := content,
         maxTokens := 120 }] })

/-! ## Handlers -/

def menuReplies : List Option2 :=
  [ { title := js "Cute Text", payload := js "CUTE" },
    { title := js "Send Image", payload := js "IMAGE" },
    { title := js "Voice Note", payload := js "VOICE" } ]

def menuText : JStr := js "Pick one, sweetie 💞"

def showMenu (psid : Psid) (w : World) : World :=
  sendQuickReply psid menuText menuReplies w

/-- The alternatives of the regular expression tested by `handleText`. -/
def testPhrases : List JStr :=
  [js "my name is", js "আমার নাম", js "আমার নামটা", js "i am"]

/-- The alternatives of the regular expression `handleText` splits on. -/
def splitPhrases : List JStr := [js "my name is", js "আমার নাম", js "i am"]

/-- One of `testPhrases` followed by `\s+` matches at the start of `s`. -/
def phraseThenSpace (s : JStr) : Bool :=
  testPhrases.any fun p =>
    matchesAt p s && (match s.drop p.length with
      | c :: _ => isWhiteSpace c
      | [] => false)

/-- The regular expression `/(my name is|আমার নাম|আমার নামটা|i am)\s+/i`
applied with `test`: it matches at some position. -/
def nameCaptureTest : JStr → Bool
  | [] => false
  | c :: s => phraseThenSpace (c :: s) || nameCaptureTest s

/-- The separator `/my name is|আমার নাম|i am/i`. -/
def phraseSep (s : JStr) : Option Nat := altMatch splitPhrases s

/-- The separator `/[.,!]/`. -/
def punctSep (s : JStr) : Option Nat :=
  match s with
  | c :: _ => if c == 46 || c == 44 || c == 33 then some 1 else none
  | [] => none

/-- The expression
`text.split(/my name is|আমার নাম|i am/i).pop().trim().split(/[.,!]/)[0]`. -/
def captured (text : JStr) : JStr :=
  (regexSplit punctSep (trim ((regexSplit phraseSep text).getLastD []))).headD []

def menuKeywords : List JStr := [js "menu", js "মেনু"]
def timeKeywords : List JStr := [js "time", js "সময়", js "সময়"]
def dateKeywords : List JStr := [js "date", js "তারিখ"]
def imageKeywords : List JStr := [js "image", js "ইমেজ", js "photo", js "ছবি"]
def voiceKeywords : List JStr := [js "voice", js "ভয়েস", js "ভয়েস", js "audio"]

/-- The test `keywords.some(k => lower.includes(k))`. -/
def someIncluded (keywords : List JStr) (lower : JStr) : Bool :=
  keywords.any fun k => includes lower k

def voiceHint : JStr := js "Set VOICE_SAMPLE_URL in .env to send voice notes 🎙️"

/-- The voice reply of `handleText` and of `handlePostback`. -/
def sendVoice (cfg : Config) (psid : Psid) (w : World) : World :=
  if !cfg.VOICE_SAMPLE_URL.isEmpty then sendAudio psid cfg.VOICE_SAMPLE_URL w
  else sendText psid voiceHint w

/-- The two buttons, each of type `postback`. -/
def engageButtons : List Option2 :=
  [ { title := js "Send Image 📸", payload := js "IMAGE" },
    { title := js "Voice Note 🎙️", payload := js "VOICE" } ]

def startReplies : List Option2 :=
  [ { title := js "Show Menu", payload := js "MENU" },
    { title := js "Send Image", payload := js "IMAGE" } ]

/-- The reply to a captured name. -/
def greeting (name : JStr) : JStr := js "Cute name, " ++ name ++ js "! 💖 Shall we start?"

def namePrompt : JStr :=
  js "Hey! তোমার নাম কী? (Type: ‘আমার নাম …’ or ‘My name is …’)"

def skipReplies : List Option2 := [ { title := js "Skip", payload := js "SKIP_NAME" } ]

def skipAck : JStr := js "Alright! I’ll call you প্রিয় 💖"

/-- The reply to a time keyword. -/
def timeReply (ext : Ext) : JStr := js "Time now: " ++ ext.timeString ++ js " ⏰"

/-- The reply to a date keyword. -/
def dateReply (ext : Ext) : JStr := js "Date: " ++ ext.dateString ++ js " 📅"

def handleText (cfg : Config) (rt : Runtime) (ext : Ext) (psid : Psid) (text : JStr)
    (w : World) : World :=
  let profile := (w.userProfiles psid).getD { name := none, lastSeen := ext.now }
  let lower := rt.toLowerCase text
  if !truthy profile.name then
    if nameCaptureTest text then
      let name := (captured text).take 30
      let profile := { profile with name := some name }
      let w := w.setProfile psid profile
      sendQuickReply psid (greeting name) startReplies w
    else sendQuickReply psid namePrompt skipReplies w
  else if someIncluded menuKeywords lower then showMenu psid w
  else if someIncluded timeKeywords lower then
    sendText psid (timeReply ext) w
  else if someIncluded dateKeywords lower then
    sendText psid (dateReply ext) w
  else if someIncluded imageKeywords lower then sendImage psid (randomPic ext.random1) w
  else if someIncluded voiceKeywords lower then sendVoice cfg psid w
  else
    let name := if truthy profile.name then profile.name.getD [] else placeholder
    let (reply, w) := aiReply ext text name w
    let w :=
      if ext.random1.lt lit02 then
        sendImage psid (randomPic ext.random2) (sendText psid reply w)
      else if ext.random2.lt lit025 then sendButtons psid reply engageButtons w
      else sendText psid reply w
    w.setProfile psid { profile with lastSeen := ext.nowEnd }

def handlePostback (cfg : Config) (ext : Ext) (psid : Psid) (payload : JStr)
    (w : World) : World :=
  let profile := (w.userProfiles psid).getD { name := none, lastSeen := ext.now }
  if payload = js "MENU" then showMenu psid w
  else if payload = js "IMAGE" then sendImage psid (randomPic ext.random1) w
  else if payload = js "VOICE" then sendVoice cfg psid w
  else if payload = js "SKIP_NAME" then
    let w := w.setProfile psid { profile with name := some placeholder }
    showMenu psid (sendText psid skipAck w)
  else sendText psid (js "Got it! 😊") w

/-! ## Webhook endpoints -/

/-- A value read from the query string, from the environment or from the
request body, as far as `===` with a string can tell: `undefined`, a string,
or anything else (an array, an object, a number). -/
inductive JSValue where
  | undefined
  | str (s : JStr)
  | other
  deriving DecidableEq, Repr

/-- The operator `===` where one side is a string or `undefined`. -/
def strictEq : JSValue → JSValue → Bool
  | JSValue.undefined, JSValue.undefined => true
  | JSValue.str s, JSValue.str t => s == t
  | _, _ => false

/-- An environment variable as a value. -/
def envValue : Option JStr → JSValue
  | none => JSValue.undefined
  | some s => JSValue.str s

/-- The query parameters `hub.mode`, `hub.verify_token`, `hub.challenge`. -/
structure VerifyQuery where
  mode : JSValue
  token : JSValue
  challenge : JSValue

/-- What a route answers: `res.status(n).send(body)` or `res.sendStatus(n)`. -/
inductive Response where
  | send (status : Nat) (body : JSValue)
  | sendStatus (status : Nat)
  deriving DecidableEq, Repr

/-- The route `app.get("/webhook")`. -/
def getWebhook (cfg : Config) (q : VerifyQuery) (w : World) : Response × World :=
  if strictEq q.mode (JSValue.str (js "subscribe")) && strictEq q.token (envValue cfg.VERIFY_TOKEN)
  then (Response.send 200 q.challenge, w)
  else (Response.sendStatus 403, w)

/-- The field `event.postback`. -/
structure Postback where
  payload : Option JStr
  deriving DecidableEq, Repr

/-- The field `event.message`; `attachments` is the length of the array. -/
structure Message where
  text : Option JStr
  attachments : Option Nat
  deriving DecidableEq, Repr

/-- One messaging event. -/
structure MessagingEvent where
  sender : Psid
  postback : Option Postback
  message : Option Message
  deriving DecidableEq, Repr

/-- One element of `req.body.entry`. -/
structure Entry where
  messaging : Option (List MessagingEvent)
  deriving DecidableEq, Repr

/-- The request body of `app.post("/webhook")`. -/
structure Body where
  object : JSValue
  entry : List Entry

def attachmentAck : JStr := js "Nice! Got your attachment 😄"

/-- The body of the loop over `req.body.entry`. -/
def handleEntry (cfg : Config) (rt : Runtime) (ext : Ext) (entry : Entry) (w : World) : World :=
  match entry.messaging.bind (fun evs => evs[0]?) with
  | none => w
  | some event =>
    let psid := event.sender
    let payload := event.postback.bind (fun pb => pb.payload)
    if truthy payload then handlePostback cfg ext psid (payload.getD []) w
    else
      match event.message with
      | none => w
      | some message =>
        let text := trim (message.text.getD [])
        if !text.isEmpty then handleText cfg rt ext psid text w
        else if 0 < message.attachments.getD 0 then sendText psid attachmentAck w
        else w

/-- The loop over `req.body.entry`; `env i` is what the environment answers
while the entry at position `i` is handled. -/
def forEntries (cfg : Config) (rt : Runtime) (env : Nat → Ext) :
    Nat → List Entry → World → World
  | _, [], w => w
  | i, entry :: rest, w => forEntries cfg rt env (i + 1) rest (handleEntry cfg rt (env i) entry w)

/-- The route `app.post("/webhook")`. -/
def postWebhook (cfg : Config) (rt : Runtime) (env : Nat → Ext) (body : Body) (w : World) :
    Response × World :=
  if strictEq body.object (JSValue.str (js "page")) then
    (Response.sendStatus 200, forEntries cfg rt env 0 body.entry w)
  else (Response.sendStatus 404, w)

/-- An inbound event as a handler receives it. -/
inductive Inbound where
  | text (psid : Psid) (text : JStr)
  | postback (psid : Psid) (payload : JStr)
  deriving DecidableEq, Repr

def Inbound.psid : Inbound → Psid
  | Inbound.text p _ => p
  | Inbound.postback p _ => p

/-- The handler run on an inbound event. -/
def step (cfg : Config) (rt : Runtime) (ext : Ext) : Inbound → World → World
  | Inbound.text p t, w => handleText cfg rt ext p t w
  | Inbound.postback p pl, w => handlePostback cfg ext p pl w

/-! ## Properties in the words of the specification -/

/-- The intents a keyword can select. -/
inductive Intent where
  | menu
  | time
  | date
  | image
  | voice
  deriving DecidableEq, Repr

/-- The keyword sets in their fixed priority order. -/
def intentTable : List (Intent × List JStr) :=
  [ (Intent.menu, menuKeywords), (Intent.time, timeKeywords), (Intent.date, dateKeywords),
    (Intent.image, imageKeywords), (Intent.voice, voiceKeywords) ]

/-- The first keyword set, in the fixed order, with a keyword contained in the
lower-cased text. -/
def firstIntent (lower : JStr) : Option Intent :=
  (intentTable.find? (fun e => someIncluded e.2 lower)).map Prod.fst

/-- The single message that answers an intent. -/
def intentReply (cfg : Config) (ext : Ext) (psid : Psid) : Intent → Outbound
  | Intent.menu => Outbound.quickReply psid menuText menuReplies
  | Intent.time => Outbound.text psid (timeReply ext)
  | Intent.date => Outbound.text psid (dateReply ext)
  | Intent.image => Outbound.image psid (randomPic ext.random1)
  | Intent.voice =>
    if cfg.VOICE_SAMPLE_URL = [] then Outbound.text psid voiceHint
    else Outbound.audio psid cfg.VOICE_SAMPLE_URL

/-- An image attachment carries a URL of the pool. -/
def imageFromPool (m : Outbound) : Prop :=
  match m with
  | Outbound.image _ u => ∃ url, url ∈ SAFE_IMAGE_POOL ∧ u = some url
  | _ => True

/-- The part of `s` before its first `.`, `,` or `!`. -/
def cutAtPunct (s : JStr) : JStr := s.takeWhile fun c => !(c == 46 || c == 44 || c == 33)

/-- The third alternative of the tested expression, the one the separator of
`split` does not list: a text that opens with it is split after its first
eight code units. -/
def longPhrase : JStr := js "আমার নামটা"

/-- The text after the phrase at the first match of the tested expression. -/
def afterMatchedPhrase : JStr → Option JStr
  | [] => none
  | c :: s =>
    match testPhrases.find? (fun p => matchesAt p (c :: s) &&
        (match (c :: s).drop p.length with
          | d :: _ => isWhiteSpace d
          | [] => false)) with
    | some p => some ((c :: s).drop p.length)
    | none => afterMatchedPhrase s

/-- The name the specification describes: what follows the matched phrase, up to the
first `.`, `,` or `!`, trimmed, at most 30 code units. -/
def claimedName (text : JStr) : Option JStr :=
  (afterMatchedPhrase text).map fun r => (trim (cutAtPunct r)).take 30

/-- The first messaging event of an entry. -/
def Entry.firstEvent (entry : Entry) : Option MessagingEvent :=
  match entry.messaging with
  | some (ev :: _) => some ev
  | _ => none

/-- The postback payload an event carries: the field `postback.payload` when it
is present and is not the empty string. -/
def MessagingEvent.payload (ev : MessagingEvent) : Option JStr :=
  match ev.postback with
  | some pb =>
    match pb.payload with
    | some (c :: pl) => some (c :: pl)
    | _ => none
  | none => none

/-- What the dispatcher is said to do with one entry: `EntryHandled … entry w w2`
when handling `entry` in state `w` ends in state `w2`. -/
inductive EntryHandled (cfg : Config) (rt : Runtime) (ext : Ext) (entry : Entry) (w : World) :
    World → Prop where
  | noEvent : entry.firstEvent = none → EntryHandled cfg rt ext entry w w
  | postback (ev : MessagingEvent) (pl : JStr) : entry.firstEvent = some ev →
      ev.payload = some pl →
      EntryHandled cfg rt ext entry w (handlePostback cfg ext ev.sender pl w)
  | text (ev : MessagingEvent) (msg : Message) : entry.firstEvent = some ev →
      ev.payload = none → ev.message = some msg → trim (msg.text.getD []) ≠ [] →
      EntryHandled cfg rt ext entry w
        (handleText cfg rt ext ev.sender (trim (msg.text.getD [])) w)
  | attachment (ev : MessagingEvent) (msg : Message) (n : Nat) : entry.firstEvent = some ev →
      ev.payload = none → ev.message = some msg → trim (msg.text.getD []) = [] →
      msg.attachments = some (n + 1) →
      EntryHandled cfg rt ext entry w (sendText ev.sender attachmentAck w)
  | nothing (ev : MessagingEvent) : entry.firstEvent = some ev → ev.payload = none →
      (∀ msg, ev.message = some msg →
        trim (msg.text.getD []) = [] ∧ (msg.attachments = none ∨ msg.attachments = some 0)) →
      EntryHandled cfg rt ext entry w w

/-- The entries are handled one after the other, in order. -/
inductive BatchHandled (cfg : Config) (rt : Runtime) (env : Nat → Ext) :
    Nat → List Entry → World → World → Prop where
  | done (i : Nat) (w : World) : BatchHandled cfg rt env i [] w w
  | next (i : Nat) (entry : Entry) (rest : List Entry) (w w1 w2 : World) :
      EntryHandled cfg rt (env i) entry w w1 → BatchHandled cfg rt env (i + 1) rest w1 w2 →
      BatchHandled cfg rt env i (entry :: rest) w w2

/-! ## Sample values -/

/-- A configuration without a voice sample. -/
def sampleConfig : Config := { VERIFY_TOKEN := some (js "secret"), VOICE_SAMPLE_URL := [] }

/-- Answers of the environment: the clock reads 200, both draws are one half. -/
def sampleExt : Ext :=
  { now := 200, nowEnd := 200, timeString := js "10:00:00 AM", dateString := js "1/1/2025",
    random1 := { mant := 1, expo := 1 }, random2 := { mant := 1, expo := 1 },
    completion := some (js "hello") }

/-- The state at process start. -/
def emptyWorld : World := { userProfiles := fun _ => none, sent := [], completionCalls := [] }

/-- A state in which user `u1` is named Rupa and was last seen at time 100. -/
def rupaWorld : World :=
  emptyWorld.setProfile (js "u1") { name := some (js "Rupa"), lastSeen := 100 }

/-- A batch with two entries: user `u1` taps the Skip quick reply; then an
event of `u1` with the empty string as postback payload and the text "menu". -/
def skipBody : Body :=
  { object := JSValue.str (js "page"),
    entry := [ { messaging := some [ { sender := js "u1",
                                       postback := some { payload := some (js "SKIP_NAME") },
                                       message := none } ] },
               { messaging := some [ { sender := js "u1",
                                       postback := some { payload := some [] },
                                       message := some { text := some (js " menu "),
                                                         attachments := none } } ] } ] }

/-- A verification request with the token `t`. -/
def subscribeQuery (t : JSValue) : VerifyQuery :=
  { mode := JSValue.str (js "subscribe"), token := t, challenge := JSValue.str (js "1158201444") }

/-! # Theorems -/

/-! ## Strings -/

theorem startsWith_iff (s k : JStr) : startsWith s k = true ↔ ∃ b, s = k ++ b := by
  induction k generalizing s with
  | nil => cases s <;> simp [startsWith]
  | cons d k ih =>
    cases s with
    | nil => simp [startsWith]
    | cons c s =>
      simp only [startsWith, Bool.and_eq_true, beq_iff_eq, ih, List.cons_append, List.cons.injEq]
      constructor
      · rintro ⟨rfl, b, rfl⟩
        exact ⟨b, rfl, rfl⟩
      · rintro ⟨b, rfl, rfl⟩
        exact ⟨rfl, b, rfl⟩

theorem includes_iff (s k : JStr) : includes s k = true ↔ ∃ a b, s = a ++ k ++ b := by
  induction s with
  | nil =>
    cases k with
    | nil => simp [includes]
    | cons d k => simp [includes]
  | cons c s ih =>
    simp only [includes, Bool.or_eq_true, startsWith_iff, ih]
    constructor
    · rintro (⟨b, hb⟩ | ⟨a, b, hb⟩)
      · exact ⟨[], b, by simpa using hb⟩
      · exact ⟨c :: a, b, by simp [hb]⟩
    · rintro ⟨a, b, hab⟩
      cases a with
      | nil => exact Or.inl ⟨b, by simpa using hab⟩
      | cons x a =>
        simp only [List.cons_append, List.cons.injEq] at hab
        exact Or.inr ⟨a, b, by simpa using hab.2⟩

theorem strictEq_str (a : JSValue) (s : JStr) :
    strictEq a (JSValue.str s) = true ↔ a = JSValue.str s := by
  cases a <;> simp [strictEq]

/-! ## Projections of the state after a send or a profile update -/

section projections
variable (psid : Psid) (s : JStr) (l : List Option2) (u : Option JStr) (b : Outbound)
  (w : World) (cfg : Config) (p : Profile)

theorem callSendAPI_profiles : (callSendAPI b w).userProfiles = w.userProfiles := rfl
theorem callSendAPI_sent : (callSendAPI b w).sent = w.sent ++ [b] := rfl
theorem callSendAPI_calls : (callSendAPI b w).completionCalls = w.completionCalls := rfl
theorem setProfile_sent : (w.setProfile psid p).sent = w.sent := rfl
theorem setProfile_calls : (w.setProfile psid p).completionCalls = w.completionCalls :=
  rfl
theorem setProfile_self : (w.setProfile psid p).userProfiles psid = some p := by
  simp [World.setProfile]
theorem setProfile_other (q : Psid) (hq : q ≠ psid) :
    (w.setProfile psid p).userProfiles q = w.userProfiles q := by
  simp [World.setProfile, hq]

theorem sendVoice_eq : sendVoice cfg psid w = callSendAPI
    (if cfg.VOICE_SAMPLE_URL = [] then Outbound.text psid voiceHint
      else Outbound.audio psid cfg.VOICE_SAMPLE_URL) w := by
  unfold sendVoice sendAudio sendText
  cases cfg.VOICE_SAMPLE_URL <;> simp

end projections

theorem log2_cases (n : Nat) (h1 : 2 ^ 53 ≤ n) (h2 : n < 2 ^ 55) :
    Nat.log2 n = 53 ∨ Nat.log2 n = 54 := by
  have hn : n ≠ 0 := by
    intro h
    rw [h] at h1
    exact absurd h1 (by norm_num)
  have hlt : Nat.log2 n < 55 := (Nat.log2_lt hn).2 h2
  have hge : ¬ Nat.log2 n < 53 := fun h => absurd ((Nat.log2_lt hn).1 h) (by omega)
  omega

theorem floor_times_three (m e : Nat) (hm : m < 2 ^ 53) (hme : m < 2 ^ e) :
    (roundToDouble (m * 3) e).floor < 3 := by
  have hpos : 0 < 2 ^ e := Nat.pow_pos (by norm_num)
  unfold roundToDouble excessBits Draw.floor
  by_cases hsmall : m * 3 < 2 ^ 53
  · simp only [hsmall, if_true]
    rw [Nat.div_lt_iff_lt_mul hpos]
    omega
  · have h55 : m * 3 < 2 ^ 55 := by
      have : (2:Nat) ^ 55 = 4 * 2 ^ 53 := by norm_num
      omega
    rcases log2_cases (m * 3) (by omega) h55 with h | h
    · simp only [hsmall, if_false, h]
      norm_num
      rw [Nat.div_lt_iff_lt_mul hpos]
      generalize 2 ^ e = E at *
      split_ifs <;> omega
    · simp only [hsmall, if_false, h]
      norm_num
      rw [Nat.div_lt_iff_lt_mul hpos]
      generalize 2 ^ e = E at *
      split_ifs <;> omega

theorem randomPic_mem (r : Draw) (hr : r.inUnit) :
    (r.timesNat SAFE_IMAGE_POOL.length).floor < SAFE_IMAGE_POOL.length ∧
    ∃ url, url ∈ SAFE_IMAGE_POOL ∧ randomPic r = some url := by
  have hlen : SAFE_IMAGE_POOL.length = 3 := rfl
  have hidx : (r.timesNat SAFE_IMAGE_POOL.length).floor < SAFE_IMAGE_POOL.length := by
    rw [hlen]
    exact floor_times_three r.mant r.expo hr.1 hr.2.2
  refine ⟨hidx, SAFE_IMAGE_POOL[(r.timesNat SAFE_IMAGE_POOL.length).floor], ?_, ?_⟩
  · exact List.getElem_mem _
  · unfold randomPic
    exact List.getElem?_eq_getElem hidx

theorem five_not_dvd_two_pow (k : Nat) : ¬ 5 ∣ 2 ^ k := by
  intro h
  have hc : Nat.Coprime 5 (2 ^ k) := Nat.Coprime.pow_right k (by norm_num)
  have := Nat.Coprime.eq_one_of_dvd hc h
  omega

theorem lt_lit02_iff (d : Draw) (h : d.inUnit) : d.lt lit02 = true ↔ d.below 1 5 := by
  obtain ⟨hm, _, _⟩ := h
  unfold Draw.lt Draw.below lit02
  simp only [decide_eq_true_eq]
  have h53 : (2:Nat) ^ 53 = 9007199254740992 := by norm_num
  have h54 : (2:Nat) ^ 54 = 18014398509481984 := by norm_num
  rw [h53] at hm
  rw [h54]
  constructor
  · intro hlt
    by_contra hnot
    have hne : d.mant * 5 ≠ 2 ^ d.expo := by
      intro heq
      exact five_not_dvd_two_pow d.expo ⟨d.mant, by omega⟩
    have hlo : 2 ^ 54 < 2 ^ d.expo := by rw [h54]; omega
    have hhi : 2 ^ d.expo < 2 ^ 56 := by
      have : (2:Nat) ^ 56 = 72057594037927936 := by norm_num
      omega
    have h1 : 54 < d.expo := (Nat.pow_lt_pow_iff_right (by norm_num)).1 hlo
    have h2 : d.expo < 56 := (Nat.pow_lt_pow_iff_right (by norm_num)).1 hhi
    have h3 : d.expo = 55 := by omega
    rw [h3] at hlt hnot hne
    have h55 : (2:Nat) ^ 55 = 36028797018963968 := by norm_num
    rw [h55] at hlt hnot hne
    omega
  · intro hlt
    omega

theorem lt_lit025_iff (d : Draw) : d.lt lit025 = true ↔ d.below 1 4 := by
  unfold Draw.lt Draw.below lit025
  simp only [decide_eq_true_eq]
  omega

/-! ## The dispatcher -/

theorem payload_of_truthy (ev : MessagingEvent)
    (h : truthy (ev.postback.bind fun pb => pb.payload) = true) :
    ev.payload = ev.postback.bind fun pb => pb.payload := by
  unfold MessagingEvent.payload
  cases hpb : ev.postback with
  | none => rfl
  | some pb =>
    rw [hpb] at h
    simp only [Option.some_bind] at h ⊢
    cases hpl : pb.payload with
    | none => rfl
    | some pl =>
      cases pl with
      | nil =>
        rw [hpl] at h
        exact absurd h (by decide)
      | cons c pl => rfl

theorem payload_of_falsy (ev : MessagingEvent)
    (h : truthy (ev.postback.bind fun pb => pb.payload) = false) : ev.payload = none := by
  unfold MessagingEvent.payload
  cases hpb : ev.postback with
  | none => rfl
  | some pb =>
    rw [hpb] at h
    simp only [Option.some_bind] at h ⊢
    cases hpl : pb.payload with
    | none => rfl
    | some pl =>
      cases pl with
      | nil => rfl
      | cons c pl =>
        rw [hpl] at h
        exact absurd h (by simp [truthy])

theorem handleEntry_handled (cfg : Config) (rt : Runtime) (ext : Ext) (entry : Entry)
    (w : World) : EntryHandled cfg rt ext entry w (handleEntry cfg rt ext entry w) := by
  unfold handleEntry
  have hfirst : entry.messaging.bind (fun evs => evs[0]?) = entry.firstEvent := by
    unfold Entry.firstEvent
    cases entry.messaging with
    | none => rfl
    | some evs => cases evs <;> simp
  rw [hfirst]
  cases hev : entry.firstEvent with
  | none => exact EntryHandled.noEvent hev
  | some ev =>
    simp only []
    cases ht : truthy (ev.postback.bind fun pb => pb.payload) with
    | true =>
      have hpay := payload_of_truthy ev ht
      simp only [if_true]
      cases hraw : ev.postback.bind (fun pb => pb.payload) with
      | none =>
        rw [hraw] at ht
        exact absurd ht (by decide)
      | some pl =>
        rw [Option.getD_some]
        exact EntryHandled.postback ev pl hev (hpay.trans hraw)
    | false =>
      have hpl := payload_of_falsy ev ht
      simp only [Bool.false_eq_true, if_false]
      cases hmsg : ev.message with
      | none =>
        exact EntryHandled.nothing ev hev hpl (fun msg h => by rw [hmsg] at h; cases h)
      | some msg =>
        simp only []
        cases htxt : trim (msg.text.getD []) with
        | cons c t =>
          have : trim (msg.text.getD []) ≠ [] := by rw [htxt]; exact List.cons_ne_nil c t
          simp only [List.isEmpty_cons, Bool.not_false, if_true]
          rw [← htxt]
          exact EntryHandled.text ev msg hev hpl hmsg this
        | nil =>
          simp only [List.isEmpty_nil, Bool.not_true, Bool.false_eq_true, if_false]
          cases hatt : msg.attachments with
          | none =>
            simp only [Option.getD_none, Nat.lt_irrefl, if_false]
            refine EntryHandled.nothing ev hev hpl (fun m h => ?_)
            rw [hmsg] at h
            cases h
            exact ⟨htxt, Or.inl hatt⟩
          | some n =>
            cases n with
            | zero =>
              simp only [Option.getD_some, Nat.lt_irrefl, if_false]
              refine EntryHandled.nothing ev hev hpl (fun m h => ?_)
              rw [hmsg] at h
              cases h
              exact ⟨htxt, Or.inr hatt⟩
            | succ n =>
              simp only [Option.getD_some, Nat.zero_lt_succ, if_true]
              exact EntryHandled.attachment ev msg n hev hpl hmsg htxt hatt

theorem forEntries_handled (cfg : Config) (rt : Runtime) (env : Nat → Ext)
    (entries : List Entry) :
    ∀ (i : Nat) (w : World),
      BatchHandled cfg rt env i entries w (forEntries cfg rt env i entries w) := by
  induction entries with
  | nil => intro i w; exact BatchHandled.done i w
  | cons entry rest ih =>
    intro i w
    exact BatchHandled.next i entry rest w _ _
      (handleEntry_handled cfg rt (env i) entry w) (ih (i + 1) _)

theorem EntryHandled_unique (cfg : Config) (rt : Runtime) (ext : Ext) (entry : Entry)
    (w a b : World) (ha : EntryHandled cfg rt ext entry w a)
    (hb : EntryHandled cfg rt ext entry w b) : a = b := by
  cases ha with
  | noEvent h =>
    cases hb with
    | noEvent _ => rfl
    | postback ev pl h1 _ => rw [h] at h1; cases h1
    | text ev msg h1 _ _ _ => rw [h] at h1; cases h1
    | attachment ev msg n h1 _ _ _ _ => rw [h] at h1; cases h1
    | nothing ev h1 _ _ => rfl
  | postback ev pl h hp =>
    cases hb with
    | noEvent h1 => rw [h] at h1; cases h1
    | postback ev2 pl2 h1 hp2 =>
      rw [h] at h1; cases h1
      rw [hp] at hp2; cases hp2
      rfl
    | text ev2 msg h1 hp2 _ _ => rw [h] at h1; cases h1; rw [hp] at hp2; cases hp2
    | attachment ev2 msg n h1 hp2 _ _ _ => rw [h] at h1; cases h1; rw [hp] at hp2; cases hp2
    | nothing ev2 h1 hp2 _ => rw [h] at h1; cases h1; rw [hp] at hp2; cases hp2
  | text ev msg h hp hmsg ht =>
    cases hb with
    | noEvent h1 => rw [h] at h1; cases h1
    | postback ev2 pl2 h1 hp2 => rw [h] at h1; cases h1; rw [hp] at hp2; cases hp2
    | text ev2 msg2 h1 _ hmsg2 _ =>
      rw [h] at h1; cases h1
      rw [hmsg] at hmsg2; cases hmsg2
      rfl
    | attachment ev2 msg2 n h1 _ hmsg2 ht2 _ =>
      rw [h] at h1; cases h1
      rw [hmsg] at hmsg2; cases hmsg2
      exact absurd ht2 ht
    | nothing ev2 h1 _ hall =>
      rw [h] at h1; cases h1
      exact absurd (hall msg hmsg).1 ht
  | attachment ev msg n h hp hmsg ht hatt =>
    cases hb with
    | noEvent h1 => rw [h] at h1; cases h1
    | postback ev2 pl2 h1 hp2 => rw [h] at h1; cases h1; rw [hp] at hp2; cases hp2
    | text ev2 msg2 h1 _ hmsg2 ht2 =>
      rw [h] at h1; cases h1
      rw [hmsg] at hmsg2; cases hmsg2
      exact absurd ht ht2
    | attachment ev2 msg2 n2 h1 _ _ _ _ =>
      rw [h] at h1; cases h1
      rfl
    | nothing ev2 h1 _ hall =>
      rw [h] at h1; cases h1
      rcases (hall msg hmsg).2 with h0 | h0 <;> rw [hatt] at h0 <;> cases h0
  | nothing ev h hp hall =>
    cases hb with
    | noEvent _ => rfl
    | postback ev2 pl2 h1 hp2 => rw [h] at h1; cases h1; rw [hp] at hp2; cases hp2
    | text ev2 msg2 h1 _ hmsg2 ht2 =>
      rw [h] at h1; cases h1
      exact absurd (hall msg2 hmsg2).1 ht2
    | attachment ev2 msg2 n h1 _ hmsg2 _ hatt =>
      rw [h] at h1; cases h1
      rcases (hall msg2 hmsg2).2 with h0 | h0 <;> rw [hatt] at h0 <;> cases h0
    | nothing ev2 _ _ _ => rfl

theorem BatchHandled_unique (cfg : Config) (rt : Runtime) (env : Nat → Ext)
    (entries : List Entry) :
    ∀ (i : Nat) (w a b : World), BatchHandled cfg rt env i entries w a →
      BatchHandled cfg rt env i entries w b → a = b := by
  induction entries with
  | nil =>
    intro i w a b ha hb
    cases ha
    cases hb
    rfl
  | cons entry rest ih =>
    intro i w a b ha hb
    cases ha with
    | next _ _ _ _ w1 _ h1 h2 =>
      cases hb with
      | next _ _ _ _ w2 _ h3 h4 =>
        have := EntryHandled_unique cfg rt (env i) entry w w1 w2 h1 h3
        subst this
        exact ih (i + 1) w1 a b h2 h4

/-! ## The handlers -/

theorem named_profile (w : World) (psid : Psid) (h : truthy (storedName w psid) = true) :
    ∃ p, w.userProfiles psid = some p ∧ truthy p.name = true ∧ storedName w psid = p.name := by
  unfold storedName at h ⊢
  cases hw : w.userProfiles psid with
  | none =>
    rw [hw] at h
    exact absurd h (by decide)
  | some p =>
    rw [hw] at h
    exact ⟨p, rfl, h, rfl⟩

theorem storedName_of (w : World) (psid : Psid) (p : Profile)
    (h : w.userProfiles psid = some p) : storedName w psid = p.name := by
  unfold storedName
  rw [h]
  rfl

theorem payload_ne :
    js "SKIP_NAME" ≠ js "MENU" ∧ js "SKIP_NAME" ≠ js "IMAGE" ∧ js "SKIP_NAME" ≠ js "VOICE" := by
  decide

theorem handleText_others (cfg : Config) (rt : Runtime) (ext : Ext) (psid : Psid) (text : JStr)
    (w : World) (q : Psid) (hq : q ≠ psid) :
    (handleText cfg rt ext psid text w).userProfiles q = w.userProfiles q := by
  unfold handleText
  simp only [aiReply, showMenu, sendQuickReply, sendText, sendImage, sendButtons, sendVoice_eq]
  generalize (w.userProfiles psid).getD { name := none, lastSeen := ext.now } = pr
  cases hn : truthy pr.name
  · simp only [Bool.not_false, if_true]
    split_ifs <;> simp only [callSendAPI_profiles, setProfile_other _ _ _ q hq]
  · simp only [Bool.not_true, Bool.false_eq_true, if_false]
    split_ifs <;> simp only [callSendAPI_profiles, setProfile_other _ _ _ q hq]

theorem handlePostback_others (cfg : Config) (ext : Ext) (psid : Psid) (payload : JStr)
    (w : World) (q : Psid) (hq : q ≠ psid) :
    (handlePostback cfg ext psid payload w).userProfiles q = w.userProfiles q := by
  unfold handlePostback
  simp only [showMenu, sendQuickReply, sendText, sendImage, sendButtons, sendVoice_eq]
  split_ifs <;>
  simp only [callSendAPI_profiles, setProfile_other _ _ _ q hq]

theorem handleText_named (cfg : Config) (rt : Runtime) (ext : Ext) (psid : Psid) (text : JStr)
    (w : World) (p : Profile) (hp : w.userProfiles psid = some p) (hn : truthy p.name = true) :
    ∃ p2, (handleText cfg rt ext psid text w).userProfiles psid = some p2 ∧ p2.name = p.name := by
  unfold handleText
  simp only [aiReply, hp, Option.getD_some, hn, Bool.not_true, Bool.false_eq_true, if_false,
    showMenu, sendQuickReply, sendText, sendImage, sendButtons, sendVoice_eq]
  split_ifs <;>
  simp only [callSendAPI_profiles, setProfile_self, hp, Option.some.injEq, exists_eq_left']

theorem handlePostback_named (cfg : Config) (ext : Ext) (psid : Psid) (payload : JStr)
    (w : World) (p : Profile) (hp : w.userProfiles psid = some p) :
    ∃ p2, (handlePostback cfg ext psid payload w).userProfiles psid = some p2 ∧
      p2.name = if payload = js "SKIP_NAME" then some placeholder else p.name := by
  obtain ⟨h1, h2, h3⟩ := payload_ne
  unfold handlePostback
  simp only [showMenu, sendQuickReply, sendText, sendImage, sendButtons, sendVoice_eq]
  by_cases hs : payload = js "SKIP_NAME"
  · subst hs
    simp only [h1, h2, h3, if_false, if_true, callSendAPI_profiles, setProfile_self,
      Option.some.injEq, exists_eq_left']
  · simp only [hs, if_false]
    split_ifs <;>
    simp only [callSendAPI_profiles, hp, Option.some.injEq, exists_eq_left']

theorem menu_lower (rt : Runtime) (text : JStr) (h : includes text (js "menu") = true) :
    someIncluded menuKeywords (rt.toLowerCase text) = true := by
  obtain ⟨a, b, rfl⟩ := (includes_iff _ _).1 h
  obtain ⟨a2, b2, h2⟩ := rt.lower_keeps a (js "menu") b (by decide)
  have : includes (rt.toLowerCase (a ++ js "menu" ++ b)) (js "menu") = true :=
    (includes_iff _ _).2 ⟨a2, b2, h2⟩
  simp only [someIncluded, menuKeywords, List.any_cons, this, Bool.true_or]

theorem handleText_menu (cfg : Config) (rt : Runtime) (ext : Ext) (psid : Psid) (text : JStr)
    (w : World) (p : Profile) (hp : w.userProfiles psid = some p) (hn : truthy p.name = true)
    (h : someIncluded menuKeywords (rt.toLowerCase text) = true) :
    handleText cfg rt ext psid text w = showMenu psid w := by
  unfold handleText
  simp only [hp, Option.getD_some, hn, Bool.not_true, Bool.false_eq_true, if_false, h, if_true]

theorem firstIntent_none (lower : JStr) (h : firstIntent lower = none) :
    someIncluded menuKeywords lower = false ∧ someIncluded timeKeywords lower = false ∧
    someIncluded dateKeywords lower = false ∧ someIncluded imageKeywords lower = false ∧
    someIncluded voiceKeywords lower = false := by
  simp only [firstIntent, intentTable, List.find?] at h
  cases h1 : someIncluded menuKeywords lower <;>
  cases h2 : someIncluded timeKeywords lower <;>
  cases h3 : someIncluded dateKeywords lower <;>
  cases h4 : someIncluded imageKeywords lower <;>
  cases h5 : someIncluded voiceKeywords lower <;>
  simp [h1, h2, h3, h4, h5] at h ⊢

theorem handleText_sent (cfg : Config) (rt : Runtime) (ext : Ext) (psid : Psid) (text : JStr)
    (w : World) (h1 : ext.random1.inUnit) (h2 : ext.random2.inUnit) :
    ∃ new, (handleText cfg rt ext psid text w).sent = w.sent ++ new ∧
      ∀ m ∈ new, imageFromPool m := by
  have hp1 : imageFromPool (Outbound.image psid (randomPic ext.random1)) :=
    (randomPic_mem _ h1).2
  have hp2 : imageFromPool (Outbound.image psid (randomPic ext.random2)) :=
    (randomPic_mem _ h2).2
  unfold handleText
  simp only [aiReply, showMenu, sendQuickReply, sendText, sendImage, sendButtons, sendVoice_eq]
  generalize (w.userProfiles psid).getD { name := none, lastSeen := ext.now } = pr
  cases hn : truthy pr.name
  · simp only [Bool.not_false, if_true]
    split_ifs <;>
    simp only [setProfile_sent, callSendAPI_sent, List.append_assoc, List.singleton_append] <;>
    refine ⟨_, rfl, ?_⟩ <;> simp [imageFromPool]
  · simp only [Bool.not_true, Bool.false_eq_true, if_false]
    split_ifs <;>
    simp only [setProfile_sent, callSendAPI_sent, List.append_assoc, List.singleton_append] <;>
    refine ⟨_, rfl, ?_⟩ <;> simp [imageFromPool] <;> first | exact hp1 | exact hp2

theorem handlePostback_sent (cfg : Config) (ext : Ext) (psid : Psid) (payload : JStr)
    (w : World) (h1 : ext.random1.inUnit) :
    ∃ new, (handlePostback cfg ext psid payload w).sent = w.sent ++ new ∧
      ∀ m ∈ new, imageFromPool m := by
  have hp1 : imageFromPool (Outbound.image psid (randomPic ext.random1)) :=
    (randomPic_mem _ h1).2
  unfold handlePostback
  simp only [showMenu, sendQuickReply, sendText, sendImage, sendButtons, sendVoice_eq]
  split_ifs <;>
  simp only [setProfile_sent, callSendAPI_sent, List.append_assoc, List.singleton_append] <;>
  refine ⟨_, rfl, ?_⟩ <;> simp [imageFromPool]
  exact hp1

/-! ## Main results -/

/-- C1, the code at failing inputs.  An unknown user writes
"My name is Rafi Amin": the text passes the name-capture test and the name that
follows the matched phrase is "Rafi Amin", but the code splits the text on the
phrases once more, without asking for whitespace, finds "i Am" inside the name,
keeps what follows the last occurrence and stores "in", which it greets.  In
the same way "I am Sam, I am happy" stores "happy".  A text that opens with the
long Bengali phrase, which the separator of `split` does not list, is split
inside that phrase and the stored name starts with the end of the phrase. -/
theorem name_capture_takes_last_segment :
    (nameCaptureTest (js "My name is Rafi Amin") = true ∧
      claimedName (js "My name is Rafi Amin") = some (js "Rafi Amin") ∧
      storedName (handleText sampleConfig asciiRuntime sampleExt (js "u1")
        (js "My name is Rafi Amin") emptyWorld) (js "u1") = some (js "in") ∧
      (handleText sampleConfig asciiRuntime sampleExt (js "u1") (js "My name is Rafi Amin")
        emptyWorld).sent = [Outbound.quickReply (js "u1") (greeting (js "in")) startReplies]) ∧
    (nameCaptureTest (js "I am Sam, I am happy") = true ∧
      claimedName (js "I am Sam, I am happy") = some (js "Sam") ∧
      storedName (handleText sampleConfig asciiRuntime sampleExt (js "u1")
        (js "I am Sam, I am happy") emptyWorld) (js "u1") = some (js "happy")) ∧
    (nameCaptureTest (longPhrase ++ js " Rupa") = true ∧
      claimedName (longPhrase ++ js " Rupa") = some (js "Rupa") ∧
      storedName (handleText sampleConfig asciiRuntime sampleExt (js "u1")
        (longPhrase ++ js " Rupa") emptyWorld) (js "u1")
        = some (longPhrase.drop 8 ++ js " Rupa") ∧
      longPhrase.drop 8 = [2463, 2494]) := by
  decide

/-- C2, the code at the failing input: an unknown user writes "My name is ...".
The text passes the name-capture test, the stored name is the empty string,
which counts as no name, and the next text, "menu", is answered with the name
prompt again. -/
theorem empty_capture_stays_unnamed :
    nameCaptureTest (js "My name is ...") = true ∧
    storedName (handleText sampleConfig asciiRuntime sampleExt (js "u1") (js "My name is ...")
      emptyWorld) (js "u1") = some [] ∧
    truthy (storedName (handleText sampleConfig asciiRuntime sampleExt (js "u1")
      (js "My name is ...") emptyWorld) (js "u1")) = false ∧
    (handleText sampleConfig asciiRuntime sampleExt (js "u1") (js "menu")
      (handleText sampleConfig asciiRuntime sampleExt (js "u1") (js "My name is ...")
        emptyWorld)).sent =
      (handleText sampleConfig asciiRuntime sampleExt (js "u1") (js "My name is ...")
        emptyWorld).sent ++ [Outbound.quickReply (js "u1") namePrompt skipReplies] := by
  decide

/-- C3: when the stored name of the user of an event is set before the event,
it is set after it, and it is the placeholder after the postback `SKIP_NAME`
and unchanged after every other event; the profile of every other user is
unchanged, whatever the state. -/
theorem name_stays_set (cfg : Config) (rt : Runtime) (ext : Ext) (ev : Inbound) (w : World) :
    (truthy (storedName w ev.psid) = true →
      truthy (storedName (step cfg rt ext ev w) ev.psid) = true ∧
      storedName (step cfg rt ext ev w) ev.psid =
        if ev = Inbound.postback ev.psid (js "SKIP_NAME") then some placeholder
        else storedName w ev.psid) ∧
    (∀ q, q ≠ ev.psid → (step cfg rt ext ev w).userProfiles q = w.userProfiles q) := by
  cases ev with
  | text psid text =>
    refine ⟨fun hn => ?_, fun q hq => handleText_others cfg rt ext psid text w q hq⟩
    obtain ⟨p, hp, hpn, hs⟩ := named_profile w psid hn
    obtain ⟨p2, h1, h2⟩ := handleText_named cfg rt ext psid text w p hp hpn
    have h3 : storedName (handleText cfg rt ext psid text w) psid = storedName w psid := by
      rw [storedName_of _ _ p2 h1, h2, hs]
    have hn2 : truthy (storedName w psid) = true := hn
    simp only [step, Inbound.psid, h3, hn2, reduceCtorEq, if_false, and_self]
  | postback psid payload =>
    refine ⟨fun hn => ?_, fun q hq => handlePostback_others cfg ext psid payload w q hq⟩
    obtain ⟨p, hp, _, hs⟩ := named_profile w psid hn
    obtain ⟨p2, h1, h2⟩ := handlePostback_named cfg ext psid payload w p hp
    have h3 : storedName (handlePostback cfg ext psid payload w) psid =
        if payload = js "SKIP_NAME" then some placeholder else storedName w psid := by
      rw [storedName_of _ _ p2 h1, h2, hs]
    simp only [step, Inbound.psid, h3, Inbound.postback.injEq, true_and]
    refine ⟨?_, trivial⟩
    split_ifs
    · decide
    · exact hn

/-- C3, witness: Rupa taps Skip and is called by the placeholder afterwards. -/
theorem name_stays_set_witness :
    truthy (storedName rupaWorld (js "u1")) = true ∧
    truthy (storedName (step sampleConfig asciiRuntime sampleExt
      (Inbound.postback (js "u1") (js "SKIP_NAME")) rupaWorld) (js "u1")) = true ∧
    storedName (step sampleConfig asciiRuntime sampleExt
      (Inbound.postback (js "u1") (js "SKIP_NAME")) rupaWorld) (js "u1") =
      if Inbound.postback (js "u1") (js "SKIP_NAME") = Inbound.postback (js "u1") (js "SKIP_NAME")
      then some placeholder else storedName rupaWorld (js "u1") :=
  ⟨by decide,
    (name_stays_set sampleConfig asciiRuntime sampleExt
      (Inbound.postback (js "u1") (js "SKIP_NAME")) rupaWorld).1 (by decide)⟩

/-- C4: for a user with a stored name, the first keyword set in the order menu,
time, date, image, voice that has a keyword in the lower-cased text fixes the
reply: exactly one message, the one of that intent, and no completion call.
A text that contains "menu" gets the menu quick reply, whose options are
Cute Text, Send Image and Voice Note. -/
theorem keyword_priority (cfg : Config) (rt : Runtime) (ext : Ext) (psid : Psid) (text : JStr)
    (w : World) (hn : truthy (storedName w psid) = true) :
    (∀ i, firstIntent (rt.toLowerCase text) = some i →
      (handleText cfg rt ext psid text w).sent = w.sent ++ [intentReply cfg ext psid i] ∧
      (handleText cfg rt ext psid text w).completionCalls = w.completionCalls) ∧
    (includes text (js "menu") = true →
      (handleText cfg rt ext psid text w).sent
        = w.sent ++ [Outbound.quickReply psid menuText menuReplies] ∧
      (handleText cfg rt ext psid text w).completionCalls = w.completionCalls) ∧
    menuReplies.map Option2.title = [js "Cute Text", js "Send Image", js "Voice Note"] := by
  obtain ⟨p, hp, hpn, _⟩ := named_profile w psid hn
  refine ⟨?_, ?_, by decide⟩
  · intro i hi
    unfold handleText
    simp only [hp, Option.getD_some, hpn, Bool.not_true, Bool.false_eq_true, if_false]
    simp only [firstIntent, intentTable, List.find?] at hi
    cases h1 : someIncluded menuKeywords (rt.toLowerCase text) <;>
    cases h2 : someIncluded timeKeywords (rt.toLowerCase text) <;>
    cases h3 : someIncluded dateKeywords (rt.toLowerCase text) <;>
    cases h4 : someIncluded imageKeywords (rt.toLowerCase text) <;>
    cases h5 : someIncluded voiceKeywords (rt.toLowerCase text) <;>
    simp only [h1, h2, h3, h4, h5, Option.map, Option.some.injEq] at hi <;>
    first
      | exact absurd hi (by simp)
      | (subst hi
         by_cases hv : cfg.VOICE_SAMPLE_URL = [] <;>
         simp [intentReply, showMenu, sendQuickReply, sendText, sendImage, sendVoice,
           sendAudio, callSendAPI, hv])
  · intro h
    rw [handleText_menu cfg rt ext psid text w p hp hpn (menu_lower rt text h)]
    exact ⟨rfl, rfl⟩

/-- C4, witness: Rupa writes "menu image"; the menu wins over the image. -/
theorem keyword_priority_witness :
    truthy (storedName rupaWorld (js "u1")) = true ∧
    firstIntent (asciiRuntime.toLowerCase (js "menu image")) = some Intent.menu ∧
    (handleText sampleConfig asciiRuntime sampleExt (js "u1") (js "menu image") rupaWorld).sent
      = rupaWorld.sent ++ [intentReply sampleConfig sampleExt (js "u1") Intent.menu] ∧
    (handleText sampleConfig asciiRuntime sampleExt (js "u1") (js "menu image")
      rupaWorld).completionCalls = rupaWorld.completionCalls :=
  ⟨by decide, by decide,
    (keyword_priority sampleConfig asciiRuntime sampleExt (js "u1") (js "menu image") rupaWorld
      (by decide)).1 Intent.menu (by decide)⟩

/-- C5: for a user with a stored name and a text whose lower-cased form contains
no keyword of the five sets, `handleText` calls the completion service exactly
once, with the preamble that embeds the stored name and the text as user
message, and, for draws `d1`, `d2` in `[0,1)`, sends: the reply text, then an
image of the pool, when `d1 < 1/5`; else one template with the reply text and
the two buttons of payloads IMAGE and VOICE when `d2 < 1/4`; else the reply
text alone. -/
theorem completion_fallback (cfg : Config) (rt : Runtime) (ext : Ext) (psid : Psid)
    (text : JStr) (w : World) (hn : truthy (storedName w psid) = true)
    (hk : firstIntent (rt.toLowerCase text) = none) (h1 : ext.random1.inUnit)
    (h2 : ext.random2.inUnit) :
    ∃ name, storedName w psid = some name ∧
      (handleText cfg rt ext psid text w).completionCalls = w.completionCalls ++
        [{ model := js "gpt-3.5-turbo", system := promptHead ++ name ++ promptTail,
           user := text, maxTokens := 120 }] ∧
      (handleText cfg rt ext psid text w).sent = w.sent ++
        (if ext.random1.below 1 5 then
          [Outbound.text psid (replyOf ext.completion),
           Outbound.image psid (randomPic ext.random2)]
         else if ext.random2.below 1 4 then
          [Outbound.buttons psid (replyOf ext.completion) engageButtons]
         else [Outbound.text psid (replyOf ext.completion)]) ∧
      (∃ url, url ∈ SAFE_IMAGE_POOL ∧ randomPic ext.random2 = some url) ∧
      engageButtons.map Option2.payload = [js "IMAGE", js "VOICE"] := by
  obtain ⟨p, hp, hpn, hs⟩ := named_profile w psid hn
  obtain ⟨k1, k2, k3, k4, k5⟩ := firstIntent_none _ hk
  obtain ⟨name, hname⟩ : ∃ name, p.name = some name := by
    cases h : p.name with
    | none => rw [h] at hpn; exact absurd hpn (by decide)
    | some n => exact ⟨n, rfl⟩
  have hn2 : truthy (some name) = true := hname ▸ hpn
  refine ⟨name, hs.trans hname, ?_, ?_, (randomPic_mem _ h2).2, by decide⟩
  · unfold handleText
    simp only [aiReply, hp, Option.getD_some, hname, hn2, Bool.not_true, Bool.false_eq_true,
      if_false, k1, k2, k3, k4, k5, if_true, sendText, sendImage, sendButtons, systemPrompt]
    split_ifs <;> simp only [setProfile_calls, callSendAPI_calls]
  · rw [← if_congr (lt_lit02_iff ext.random1 h1) rfl
      (if_congr (lt_lit025_iff ext.random2) rfl rfl)]
    unfold handleText
    simp only [aiReply, hp, Option.getD_some, hpn, Bool.not_true, Bool.false_eq_true, if_false,
      k1, k2, k3, k4, k5, if_true, sendText, sendImage, sendButtons]
    split_ifs <;>
    simp only [setProfile_sent, callSendAPI_sent, List.append_assoc, List.singleton_append]

/-- C5, witness: Rupa writes "hello there"; both draws are one half, so the
reply goes out as plain text. -/
theorem completion_fallback_witness :
    truthy (storedName rupaWorld (js "u1")) = true ∧
    firstIntent (asciiRuntime.toLowerCase (js "hello there")) = none ∧
    sampleExt.random1.inUnit ∧ sampleExt.random2.inUnit ∧
    (handleText sampleConfig asciiRuntime sampleExt (js "u1") (js "hello there") rupaWorld).sent
      = [Outbound.text (js "u1") (js "hello")] ∧
    ∃ name, storedName rupaWorld (js "u1") = some name ∧
      (handleText sampleConfig asciiRuntime sampleExt (js "u1") (js "hello there")
        rupaWorld).completionCalls = rupaWorld.completionCalls ++
        [{ model := js "gpt-3.5-turbo", system := promptHead ++ name ++ promptTail,
           user := js "hello there", maxTokens := 120 }] ∧
      (handleText sampleConfig asciiRuntime sampleExt (js "u1") (js "hello there")
        rupaWorld).sent = rupaWorld.sent ++
        (if sampleExt.random1.below 1 5 then
          [Outbound.text (js "u1") (replyOf sampleExt.completion),
           Outbound.image (js "u1") (randomPic sampleExt.random2)]
         else if sampleExt.random2.below 1 4 then
          [Outbound.buttons (js "u1") (replyOf sampleExt.completion) engageButtons]
         else [Outbound.text (js "u1") (replyOf sampleExt.completion)]) ∧
      (∃ url, url ∈ SAFE_IMAGE_POOL ∧ randomPic sampleExt.random2 = some url) ∧
      engageButtons.map Option2.payload = [js "IMAGE", js "VOICE"] :=
  ⟨by decide, by decide, by decide, by decide, by decide,
    completion_fallback sampleConfig asciiRuntime sampleExt (js "u1") (js "hello there")
      rupaWorld (by decide) (by decide) (by decide) (by decide)⟩

/-- C6: whatever the user id and the state, the postback `SKIP_NAME` leaves the
placeholder as the stored name of the user and sends exactly two messages: the
acknowledgement text, then the menu quick reply. -/
theorem skip_name_assigns_placeholder (cfg : Config) (ext : Ext) (psid : Psid) (w : World) :
    storedName (handlePostback cfg ext psid (js "SKIP_NAME") w) psid = some placeholder ∧
    (handlePostback cfg ext psid (js "SKIP_NAME") w).sent
      = w.sent ++ [Outbound.text psid skipAck, Outbound.quickReply psid menuText menuReplies] ∧
    (handlePostback cfg ext psid (js "SKIP_NAME") w).completionCalls = w.completionCalls := by
  obtain ⟨h1, h2, h3⟩ := payload_ne
  unfold handlePostback storedName
  simp only [h1, h2, h3, if_false, if_true, showMenu, sendQuickReply, sendText,
    callSendAPI_profiles, callSendAPI_sent, callSendAPI_calls, setProfile_self, setProfile_sent,
    setProfile_calls, List.append_assoc, List.singleton_append, Option.some_bind, and_self]

/-- C7, the code at failing inputs: Rupa, last seen at time 100, writes "menu"
when the clock reads 200, and her stored profile still says 100; an unknown
user writes "hello" and no profile is stored at all. -/
theorem last_seen_not_updated :
    sampleExt.now = 200 ∧ sampleExt.nowEnd = 200 ∧
    (handleText sampleConfig asciiRuntime sampleExt (js "u1") (js "menu") rupaWorld).userProfiles
      (js "u1") = some { name := some (js "Rupa"), lastSeen := 100 } ∧
    (handleText sampleConfig asciiRuntime sampleExt (js "u1") (js "hello") emptyWorld).userProfiles
      (js "u1") = none := by
  decide

/-- C8: the verifier leaves the state as it was and its answer does not depend
on the state; when the secret `secret` is configured it answers 200 with the
challenge as body exactly when the mode is the string "subscribe" and the token
is the string `secret`, and 403 in every other case. -/
theorem verify_webhook (cfg : Config) (q : VerifyQuery) (w : World) :
    (getWebhook cfg q w).2 = w ∧
    (∀ w2 : World, (getWebhook cfg q w2).1 = (getWebhook cfg q w).1) ∧
    ∀ secret : JStr, cfg.VERIFY_TOKEN = some secret →
      (getWebhook cfg q w).1 =
        (if q.mode = JSValue.str (js "subscribe") ∧ q.token = JSValue.str secret
         then Response.send 200 q.challenge else Response.sendStatus 403) := by
  refine ⟨?_, fun w2 => ?_, fun secret hs => ?_⟩
  · unfold getWebhook
    split_ifs <;> rfl
  · unfold getWebhook
    split_ifs <;> rfl
  · have key : (strictEq q.mode (JSValue.str (js "subscribe")) &&
        strictEq q.token (envValue (some secret))) = true ↔
        (q.mode = JSValue.str (js "subscribe") ∧ q.token = JSValue.str secret) := by
      rw [Bool.and_eq_true, strictEq_str]
      unfold envValue
      rw [strictEq_str]
    unfold getWebhook
    rw [hs]
    by_cases h : q.mode = JSValue.str (js "subscribe") ∧ q.token = JSValue.str secret
    · rw [if_pos (key.2 h), if_pos h]
    · rw [if_neg (mt key.1 h), if_neg h]

/-- C8, witness: with the secret "secret" configured, a subscribe request with
the token "secret" is answered 200 with its challenge, one with the token
"guess" and one without a token are answered 403. -/
theorem verify_webhook_witness :
    sampleConfig.VERIFY_TOKEN = some (js "secret") ∧
    (getWebhook sampleConfig (subscribeQuery (JSValue.str (js "secret"))) emptyWorld).1
      = Response.send 200 (JSValue.str (js "1158201444")) ∧
    (getWebhook sampleConfig (subscribeQuery (JSValue.str (js "guess"))) emptyWorld).1
      = Response.sendStatus 403 ∧
    (getWebhook sampleConfig (subscribeQuery JSValue.undefined) emptyWorld).1
      = Response.sendStatus 403 ∧
    (getWebhook sampleConfig (subscribeQuery (JSValue.str (js "secret"))) emptyWorld).1 =
      (if (subscribeQuery (JSValue.str (js "secret"))).mode = JSValue.str (js "subscribe") ∧
          (subscribeQuery (JSValue.str (js "secret"))).token = JSValue.str (js "secret")
       then Response.send 200 (subscribeQuery (JSValue.str (js "secret"))).challenge
       else Response.sendStatus 403) :=
  ⟨rfl, by decide, by decide, by decide,
    (verify_webhook sampleConfig (subscribeQuery (JSValue.str (js "secret"))) emptyWorld).2.2
      (js "secret") rfl⟩

/-- C9: for a body whose object is "page" the dispatcher answers 200 and the
entries are handled in order, each by its first messaging event only:
`handlePostback` when the event carries a postback payload (a payload that is
present and not the empty string), else `handleText` on the trimmed text when
that is not empty, else the attachment acknowledgement when the message has
attachments, else nothing; the final state is the only one this description
allows.  For a body whose object is not "page" it answers 404 and the state is
unchanged. -/
theorem dispatcher_routes (cfg : Config) (rt : Runtime) (env : Nat → Ext) (body : Body)
    (w : World) :
    (body.object = JSValue.str (js "page") →
      (postWebhook cfg rt env body w).1 = Response.sendStatus 200 ∧
      BatchHandled cfg rt env 0 body.entry w (postWebhook cfg rt env body w).2 ∧
      ∀ w2, BatchHandled cfg rt env 0 body.entry w w2 → w2 = (postWebhook cfg rt env body w).2) ∧
    (body.object ≠ JSValue.str (js "page") →
      (postWebhook cfg rt env body w).1 = Response.sendStatus 404 ∧
      (postWebhook cfg rt env body w).2 = w) := by
  unfold postWebhook
  constructor
  · intro hpage
    rw [if_pos ((strictEq_str _ _).2 hpage)]
    have hb := forEntries_handled cfg rt env body.entry 0 w
    exact ⟨rfl, hb, fun w2 h2 => BatchHandled_unique cfg rt env body.entry 0 w _ _ h2 hb⟩
  · intro hpage
    rw [if_neg (fun h => hpage ((strictEq_str _ _).1 h))]
    exact ⟨rfl, rfl⟩

/-- C9, witness: a page body with two entries is answered with 200.  The first
entry, a `SKIP_NAME` postback of user `u1`, is handled by `handlePostback`; the
second, whose postback payload is the empty string, carries no payload and its
text " menu " is handled, trimmed, by `handleText`. -/
theorem dispatcher_routes_witness :
    skipBody.object = JSValue.str (js "page") ∧
    storedName (postWebhook sampleConfig asciiRuntime (fun _ => sampleExt) skipBody
      emptyWorld).2 (js "u1") = some placeholder ∧
    (postWebhook sampleConfig asciiRuntime (fun _ => sampleExt) skipBody emptyWorld).2.sent
      = [Outbound.text (js "u1") skipAck, Outbound.quickReply (js "u1") menuText menuReplies,
         Outbound.quickReply (js "u1") menuText menuReplies] ∧
    (postWebhook sampleConfig asciiRuntime (fun _ => sampleExt) skipBody emptyWorld).2 =
      handleText sampleConfig asciiRuntime sampleExt (js "u1") (js "menu")
        (handlePostback sampleConfig sampleExt (js "u1") (js "SKIP_NAME") emptyWorld) ∧
    (postWebhook sampleConfig asciiRuntime (fun _ => sampleExt) skipBody emptyWorld).1
      = Response.sendStatus 200 ∧
    BatchHandled sampleConfig asciiRuntime (fun _ => sampleExt) 0 skipBody.entry emptyWorld
      (postWebhook sampleConfig asciiRuntime (fun _ => sampleExt) skipBody emptyWorld).2 :=
  ⟨rfl, by decide, by decide, rfl,
    ((dispatcher_routes sampleConfig asciiRuntime (fun _ => sampleExt) skipBody emptyWorld).1
      rfl).1,
    ((dispatcher_routes sampleConfig asciiRuntime (fun _ => sampleExt) skipBody emptyWorld).1
      rfl).2.1⟩

/-- C10: for every draw in `[0,1)` the index `Math.floor(r * 3)`, computed in
double precision, is an index of the pool, so the picked URL is defined and a
member of the pool; hence every image attachment sent by `handleText` or by
`handlePostback` carries a URL of the pool. -/
theorem image_url_from_pool (cfg : Config) (rt : Runtime) (ext : Ext) (ev : Inbound)
    (w : World) (h1 : ext.random1.inUnit) (h2 : ext.random2.inUnit) :
    (∀ r : Draw, r.inUnit →
      (r.timesNat SAFE_IMAGE_POOL.length).floor < SAFE_IMAGE_POOL.length ∧
      ∃ url, url ∈ SAFE_IMAGE_POOL ∧ randomPic r = some url) ∧
    ∃ new, (step cfg rt ext ev w).sent = w.sent ++ new ∧ ∀ m ∈ new, imageFromPool m := by
  refine ⟨fun r hr => randomPic_mem r hr, ?_⟩
  cases ev with
  | text psid text => exact handleText_sent cfg rt ext psid text w h1 h2
  | postback psid payload => exact handlePostback_sent cfg ext psid payload w h1

/-- C10, witness: Rupa writes "send an image" and gets the second image of the
pool. -/
theorem image_url_from_pool_witness :
    sampleExt.random1.inUnit ∧ sampleExt.random2.inUnit ∧
    (step sampleConfig asciiRuntime sampleExt (Inbound.text (js "u1") (js "send an image"))
      rupaWorld).sent = [Outbound.image (js "u1") (SAFE_IMAGE_POOL[1]?)] ∧
    ∃ new, (step sampleConfig asciiRuntime sampleExt (Inbound.text (js "u1") (js "send an image"))
      rupaWorld).sent = rupaWorld.sent ++ new ∧ ∀ m ∈ new, imageFromPool m :=
  ⟨by decide, by decide, by decide,
    (image_url_from_pool sampleConfig asciiRuntime sampleExt
      (Inbound.text (js "u1") (js "send an image")) rupaWorld (by decide) (by decide)).2⟩

end SweetMix
